import Mathlib

/-!
Verification development for the CompanyCam MCP server
(`src/companycam_mcp_server.py`).

The Python module is shallowly embedded below.  Python dictionaries coming
from JSON are modelled as association lists (`List (String × String)` when all
values of interest are strings), with `dict.get` becoming an association-list
lookup.  Optional JSON fields of heterogeneous type are modelled with `Option`
fields on explicit structures.  Python string operations used by the module
(`str.strip`, slicing, `"sep".join`, `str.replace`) are re-implemented over
`List Char` so that every definition evaluates inside the kernel.
Machine-level concerns do not arise: all arithmetic in the source is
unbounded Python integer arithmetic, modelled by `Int`/`Nat`.
-/

/-! ## Python string primitives -/

/-- Characters treated as whitespace by Python `str.strip()` (ASCII subset,
which covers every string this module manipulates). -/
def pyIsSpace (c : Char) : Bool :=
  c = ' ' || c = '\t' || c = '\n' || c = '\r' || c = '\x0b' || c = '\x0c'

/-- Python `str.strip()`. -/
def pyStrip (s : String) : String :=
  ⟨((s.data.dropWhile pyIsSpace).reverse.dropWhile pyIsSpace).reverse⟩

/-- Python slicing `s[:n]` (by code point, as in Python). -/
def pyTake (s : String) (n : Nat) : String :=
  ⟨s.data.take n⟩

/-- Python `len(s)` (number of code points). -/
def pyLen (s : String) : Nat :=
  s.data.length

/-- Python `"sep".join(xs)`. -/
def pyJoin (sep : String) : List String → String
  | [] => ""
  | [a] => a
  | a :: b :: rest => a ++ (sep ++ pyJoin sep (b :: rest))

/-- Python `s.replace("Z", "+00:00")`, as used on date filter strings. -/
def replaceZ (s : String) : String :=
  ⟨s.data.flatMap (fun c => if c = 'Z' then "+00:00".data else [c])⟩

/-- Lookup in a string-valued JSON object (Python `d.get(k)`), first binding
wins as in a Python dict. -/
def dictGet? (d : List (String × String)) (k : String) : Option String :=
  (d.find? (fun kv => kv.1 == k)).map (fun kv => kv.2)

/-- Python `d.get(k, dflt)` on a string-valued JSON object. -/
def dictGetD (d : List (String × String)) (k : String) (dflt : String) : String :=
  (dictGet? d k).getD dflt

/-- Python truthiness-aware `x or dflt` where `x` is `d.get(k)`: the default
wins when the key is absent or its value is the empty string. -/
def pyOr (v : Option String) (dflt : String) : String :=
  match v with
  | some s => if s = "" then dflt else s
  | none => dflt

/-- Python `.get(k, dflt)` on an `Option`-modelled field. -/
def getD (v : Option String) (dflt : String) : String :=
  v.getD dflt

/-! ## Calendar arithmetic

`datetime.fromtimestamp(_, tz=timezone.utc)` and `datetime.fromisoformat`
work on the proleptic Gregorian calendar; `daysFromCivil`/`civilFromDays`
are the standard conversions between a civil date and a count of days since
1970-01-01. -/

/-- Days since the Unix epoch of the civil date `y-m-d`. -/
def daysFromCivil (y m d : Int) : Int :=
  let y := y - (if m ≤ 2 then 1 else 0)
  let era := Int.fdiv y 400
  let yoe := y - era * 400
  let doy := Int.fdiv (153 * (m + (if m > 2 then -3 else 9)) + 2) 5 + d - 1
  let doe := yoe * 365 + Int.fdiv yoe 4 - Int.fdiv yoe 100 + doy
  era * 146097 + doe - 719468

/-- Civil date `(y, m, d)` of a count of days since the Unix epoch. -/
def civilFromDays (z : Int) : Int × Int × Int :=
  let z := z + 719468
  let era := Int.fdiv z 146097
  let doe := z - era * 146097
  let yoe := Int.fdiv (doe - Int.fdiv doe 1460 + Int.fdiv doe 36524 - Int.fdiv doe 146096) 365
  let y := yoe + era * 400
  let doy := doe - (365 * yoe + Int.fdiv yoe 4 - Int.fdiv yoe 100)
  let mp := Int.fdiv (5 * doy + 2) 153
  let d := doy - Int.fdiv (153 * mp + 2) 5 + 1
  let m := mp + (if mp < 10 then 3 else -9)
  (y + (if m ≤ 2 then 1 else 0), m, d)

/-- Zero-padded two-digit rendering used by `strftime` fields. -/
def pad2 (n : Int) : String :=
  if n < 10 then "0" ++ toString n else toString n

/-- `datetime.fromtimestamp(ts, tz=timezone.utc).strftime("%Y-%m-%d %H:%M:%S UTC")`. -/
def strftimeUTC (ts : Int) : String :=
  let days := Int.fdiv ts 86400
  let rem := ts - days * 86400
  let ymd := civilFromDays days
  let hh := Int.fdiv rem 3600
  let mi := Int.fdiv (rem - hh * 3600) 60
  let ss := rem - hh * 3600 - mi * 60
  toString ymd.1 ++ ("-" ++ (pad2 ymd.2.1 ++ ("-" ++ (pad2 ymd.2.2 ++
    (" " ++ (pad2 hh ++ (":" ++ (pad2 mi ++ (":" ++ (pad2 ss ++ " UTC"))))))))))

/-- `_unix_to_str(ts)`: Python `if not ts` treats both `None` and the integer
`0` as falsy, so both yield `"N/A"`. -/
def _unix_to_str (ts : Option Int) : String :=
  match ts with
  | none => "N/A"
  | some t => if t = 0 then "N/A" else strftimeUTC t

/-! ## `datetime.fromisoformat` on date-only strings

The date filters of `cc_list_project_photos` are documented as ISO-8601 date
strings such as `"2025-01-15"`.  `fromisoformat` on such a string returns a
naive (timezone-less) `datetime` at midnight; CPython's
`datetime.timestamp()` then interprets a naive datetime in the process's
local timezone.  The embedding keeps the local UTC offset (in seconds) as an
explicit parameter `tzOffset` of the environment: the timestamp of naive
midnight of day `n` is `n * 86400 - tzOffset`. -/

/-- Numeric value of a decimal digit list, `none` when a non-digit occurs
or the list is empty. -/
def digitsVal? : List Char → Option Nat
  | [] => none
  | l => if l.all Char.isDigit then
           some (l.foldl (fun acc c => acc * 10 + (c.toNat - 48)) 0)
         else none

/-- Day count of each month in year `y` (proleptic Gregorian). -/
def daysInMonth (y m : Int) : Int :=
  if m = 2 then
    if Int.emod y 4 = 0 ∧ (Int.emod y 100 ≠ 0 ∨ Int.emod y 400 = 0) then 29 else 28
  else if m = 4 ∨ m = 6 ∨ m = 9 ∨ m = 11 then 30
  else 31

/-- `datetime.fromisoformat` restricted to the date-only shape `YYYY-MM-DD`
(the shape of the date filters this module documents); yields the civil
date, which `fromisoformat` pairs with a naive midnight time. -/
def fromisoformatDate? (s : String) : Option (Int × Int × Int) :=
  match s.data with
  | [y1, y2, y3, y4, s1, m1, m2, s2, d1, d2] =>
    if s1 = '-' ∧ s2 = '-' then
      match digitsVal? [y1, y2, y3, y4], digitsVal? [m1, m2], digitsVal? [d1, d2] with
      | some y, some m, some d =>
        if 1 ≤ (m : Int) ∧ (m : Int) ≤ 12 ∧ 1 ≤ (d : Int) ∧ (d : Int) ≤ daysInMonth y m then
          some ((y : Int), (m : Int), (d : Int))
        else none
      | _, _, _ => none
    else none
  | _ => none

/-- The body of `int(datetime.fromisoformat(s.replace("Z", "+00:00")).timestamp())`
for a date-only string: a naive midnight datetime whose `timestamp()` CPython
evaluates in the local timezone (offset `tzOffset` seconds east of UTC).
Returns `none` when `fromisoformat` would raise `ValueError`. -/
def dateParamToTimestamp? (s : String) (tzOffset : Int) : Option Int :=
  (fromisoformatDate? (replaceZ s)).map
    (fun ymd => daysFromCivil ymd.1 ymd.2.1 ymd.2.2 * 86400 - tzOffset)

/-! ## Formatting helpers (`_format_address`, `_get_photo_url`) -/

/-- A JSON object whose relevant values are strings. -/
abbrev StrDict := List (String × String)

/-- The five address components read by `_format_address`, in source order. -/
def addrParts (a : StrDict) : List String :=
  [dictGetD a "street_address_1" "",
   dictGetD a "street_address_2" "",
   dictGetD a "city" "",
   dictGetD a "state" "",
   dictGetD a "postal_code" ""]

/-- `_format_address(addr)`.  Python `if not addr` is true for `None` and for
the empty dict only; a non-empty dict proceeds to the join of its truthy
parts. -/
def _format_address (addr : Option StrDict) : String :=
  match addr with
  | none => "No address"
  | some a =>
    if a.isEmpty then "No address"
    else pyJoin ", " ((addrParts a).filter (fun p => p != ""))

/-- `uri.get("url") or uri.get("uri", "")`: the `url` value wins only when it
is present and non-empty (Python `or` is truthiness-based); otherwise the
`uri` value is used, defaulting to the empty string. -/
def entryUrl (u : StrDict) : String :=
  pyOr (dictGet? u "url") (dictGetD u "uri" "")

/-- `_get_photo_url(uris, size)`: first entry whose `type` equals `size`,
else the first entry, else the fixed no-URL token. -/
def _get_photo_url (uris : List StrDict) (size : String) : String :=
  match uris.find? (fun u => dictGet? u "type" == some size) with
  | some u => entryUrl u
  | none =>
    match uris with
    | u :: _ => entryUrl u
    | [] => "No URL available"

/-! ## Input models

Each pydantic model is embedded as a structure together with a validator
taking the raw keyword arguments (a JSON object: each value an integer, a
string, or a list of strings).  `model_config` semantics:
`extra="forbid"` rejects unknown keys; `str_strip_whitespace=True` strips
string values before the length constraints are checked.  A missing
optional field takes its declared default; `ge`/`le`/`min_length`/
`max_length` are checked on supplied values. -/

inductive RawVal where
  | rint (i : Int)
  | rstr (s : String)
  | rlist (l : List String)
deriving DecidableEq

abbrev RawInput := List (String × RawVal)

def rawLookup (r : RawInput) (k : String) : Option RawVal :=
  (r.find? (fun kv => kv.1 == k)).map (fun kv => kv.2)

/-- `extra="forbid"`: every supplied key must be a declared field. -/
def keysOk (r : RawInput) (allowed : List String) : Bool :=
  r.all (fun kv => allowed.contains kv.1)

/-- A required string field with optional stripping and length bounds. -/
def reqStrField (r : RawInput) (k : String) (strip : Bool)
    (minLen : Option Nat) (maxLen : Option Nat) : Except String String :=
  match rawLookup r k with
  | some (.rstr s) =>
    let s := if strip then pyStrip s else s
    if (match minLen with | some m => decide (m ≤ pyLen s) | none => true) &&
       (match maxLen with | some m => decide (pyLen s ≤ m) | none => true) then
      .ok s
    else .error (k ++ ": length constraint violated")
  | some _ => .error (k ++ ": expected a string")
  | none => .error (k ++ ": field required")

/-- An optional string field (default `None`) with stripping. -/
def optStrField (r : RawInput) (k : String) (strip : Bool) :
    Except String (Option String) :=
  match rawLookup r k with
  | some (.rstr s) => .ok (some (if strip then pyStrip s else s))
  | some _ => .error (k ++ ": expected a string")
  | none => .ok none

/-- An optional integer field with a default and `ge`/`le` bounds. -/
def optIntField (r : RawInput) (k : String) (dflt : Int) (lo : Int)
    (hi : Option Int) : Except String Int :=
  match rawLookup r k with
  | some (.rint i) =>
    if decide (lo ≤ i) && (match hi with | some h => decide (i ≤ h) | none => true) then
      .ok i
    else .error (k ++ ": out of bounds")
  | some _ => .error (k ++ ": expected an integer")
  | none => .ok dflt

/-- A required list-of-strings field with a minimum length, elements
stripped. -/
def reqStrListField (r : RawInput) (k : String) (minLen : Nat) :
    Except String (List String) :=
  match rawLookup r k with
  | some (.rlist l) =>
    if decide (minLen ≤ l.length) then .ok (l.map pyStrip)
    else .error (k ++ ": length constraint violated")
  | some _ => .error (k ++ ": expected a list of strings")
  | none => .error (k ++ ": field required")

def DEFAULT_PER_PAGE : Int := 25

structure SearchProjectsInput where
  query : String
  page : Int
  per_page : Int
deriving DecidableEq

def validateSearchProjects (r : RawInput) : Except String SearchProjectsInput :=
  if keysOk r ["query", "page", "per_page"] then
    match reqStrField r "query" true (some 1) (some 200) with
    | .error e => .error e
    | .ok q =>
      match optIntField r "page" 1 1 none with
      | .error e => .error e
      | .ok pg =>
        match optIntField r "per_page" DEFAULT_PER_PAGE 1 (some 100) with
        | .error e => .error e
        | .ok pp => .ok ⟨q, pg, pp⟩
  else .error "extra inputs are not permitted"

structure GetProjectInput where
  project_id : String
deriving DecidableEq

def validateGetProject (r : RawInput) : Except String GetProjectInput :=
  if keysOk r ["project_id"] then
    match reqStrField r "project_id" true (some 1) none with
    | .error e => .error e
    | .ok pid => .ok ⟨pid⟩
  else .error "extra inputs are not permitted"

structure ListProjectPhotosInput where
  project_id : String
  start_date : Option String
  end_date : Option String
  user_id : Option String
  tag_id : Option String
  page : Int
  per_page : Int
deriving DecidableEq

def validateListProjectPhotos (r : RawInput) :
    Except String ListProjectPhotosInput :=
  if keysOk r ["project_id", "start_date", "end_date", "user_id", "tag_id",
               "page", "per_page"] then
    match reqStrField r "project_id" true (some 1) none with
    | .error e => .error e
    | .ok pid =>
      match optStrField r "start_date" true with
      | .error e => .error e
      | .ok sd =>
        match optStrField r "end_date" true with
        | .error e => .error e
        | .ok ed =>
          match optStrField r "user_id" true with
          | .error e => .error e
          | .ok uid =>
            match optStrField r "tag_id" true with
            | .error e => .error e
            | .ok tid =>
              match optIntField r "page" 1 1 none with
              | .error e => .error e
              | .ok pg =>
                match optIntField r "per_page" DEFAULT_PER_PAGE 1 (some 100) with
                | .error e => .error e
                | .ok pp => .ok ⟨pid, sd, ed, uid, tid, pg, pp⟩
  else .error "extra inputs are not permitted"

structure GetPhotoInput where
  photo_id : String
deriving DecidableEq

def validateGetPhoto (r : RawInput) : Except String GetPhotoInput :=
  if keysOk r ["photo_id"] then
    match reqStrField r "photo_id" true (some 1) none with
    | .error e => .error e
    | .ok pid => .ok ⟨pid⟩
  else .error "extra inputs are not permitted"

structure ListProjectLabelsInput where
  project_id : String
deriving DecidableEq

def validateListProjectLabels (r : RawInput) :
    Except String ListProjectLabelsInput :=
  if keysOk r ["project_id"] then
    match reqStrField r "project_id" true (some 1) none with
    | .error e => .error e
    | .ok pid => .ok ⟨pid⟩
  else .error "extra inputs are not permitted"

structure ListProjectCommentsInput where
  project_id : String
  page : Int
  per_page : Int
deriving DecidableEq

def validateListProjectComments (r : RawInput) :
    Except String ListProjectCommentsInput :=
  if keysOk r ["project_id", "page", "per_page"] then
    match reqStrField r "project_id" true (some 1) none with
    | .error e => .error e
    | .ok pid =>
      match optIntField r "page" 1 1 none with
      | .error e => .error e
      | .ok pg =>
        match optIntField r "per_page" DEFAULT_PER_PAGE 1 (some 100) with
        | .error e => .error e
        | .ok pp => .ok ⟨pid, pg, pp⟩
  else .error "extra inputs are not permitted"

structure ListUsersInput where
  page : Int
  per_page : Int
deriving DecidableEq

def validateListUsers (r : RawInput) : Except String ListUsersInput :=
  if keysOk r ["page", "per_page"] then
    match optIntField r "page" 1 1 none with
    | .error e => .error e
    | .ok pg =>
      match optIntField r "per_page" 100 1 (some 100) with
      | .error e => .error e
      | .ok pp => .ok ⟨pg, pp⟩
  else .error "extra inputs are not permitted"

structure ListTagsInput where
  page : Int
  per_page : Int
deriving DecidableEq

def validateListTags (r : RawInput) : Except String ListTagsInput :=
  if keysOk r ["page", "per_page"] then
    match optIntField r "page" 1 1 none with
    | .error e => .error e
    | .ok pg =>
      match optIntField r "per_page" 100 1 (some 100) with
      | .error e => .error e
      | .ok pp => .ok ⟨pg, pp⟩
  else .error "extra inputs are not permitted"

structure AddProjectCommentInput where
  project_id : String
  content : String
deriving DecidableEq

def validateAddProjectComment (r : RawInput) :
    Except String AddProjectCommentInput :=
  if keysOk r ["project_id", "content"] then
    match reqStrField r "project_id" true (some 1) none with
    | .error e => .error e
    | .ok pid =>
      match reqStrField r "content" true (some 1) (some 5000) with
      | .error e => .error e
      | .ok c => .ok ⟨pid, c⟩
  else .error "extra inputs are not permitted"

structure AddPhotoTagsInput where
  photo_id : String
  tags : List String
deriving DecidableEq

def validateAddPhotoTags (r : RawInput) : Except String AddPhotoTagsInput :=
  if keysOk r ["photo_id", "tags"] then
    match reqStrField r "photo_id" true (some 1) none with
    | .error e => .error e
    | .ok pid =>
      match reqStrListField r "tags" 1 with
      | .error e => .error e
      | .ok ts => .ok ⟨pid, ts⟩
  else .error "extra inputs are not permitted"

structure AddProjectLabelsInput where
  project_id : String
  labels : List String
deriving DecidableEq

def validateAddProjectLabels (r : RawInput) :
    Except String AddProjectLabelsInput :=
  if keysOk r ["project_id", "labels"] then
    match reqStrField r "project_id" true (some 1) none with
    | .error e => .error e
    | .ok pid =>
      match reqStrListField r "labels" 1 with
      | .error e => .error e
      | .ok ls => .ok ⟨pid, ls⟩
  else .error "extra inputs are not permitted"

structure UpdateNotepadInput where
  project_id : String
  notepad : String
deriving DecidableEq

def validateUpdateNotepad (r : RawInput) : Except String UpdateNotepadInput :=
  if keysOk r ["project_id", "notepad"] then
    match reqStrField r "project_id" true (some 1) none with
    | .error e => .error e
    | .ok pid =>
      match reqStrField r "notepad" true none (some 10000) with
      | .error e => .error e
      | .ok n => .ok ⟨pid, n⟩
  else .error "extra inputs are not permitted"

structure AddPhotoCommentInput where
  photo_id : String
  content : String
deriving DecidableEq

def validateAddPhotoComment (r : RawInput) :
    Except String AddPhotoCommentInput :=
  if keysOk r ["photo_id", "content"] then
    match reqStrField r "photo_id" true (some 1) none with
    | .error e => .error e
    | .ok pid =>
      match reqStrField r "content" true (some 1) (some 5000) with
      | .error e => .error e
      | .ok c => .ok ⟨pid, c⟩
  else .error "extra inputs are not permitted"

/-! ## Domain entities

Raw JSON entities, as consumed by the summary formatters.  Each field is
`Option`-valued (the key may be absent); `dict.get` defaults from the source
are applied at the use sites, exactly as in the Python. -/

structure Project where
  id : Option String
  name : Option String
  status : Option String
  archived : Option Bool
  created_at : Option Int
  updated_at : Option Int
  project_url : Option String
  notepad : Option String
  address : Option StrDict
  primary_contact : Option StrDict
  integrations : Option (List StrDict)
deriving DecidableEq

/-- `photo.get("coordinates")` may be a single object or a list of objects
(the source iterates `coords if isinstance(coords, list) else [coords]`).
Latitude and longitude are kept as display strings. -/
inductive Coordinates where
  | one (c : StrDict)
  | many (l : List StrDict)
deriving DecidableEq

structure Photo where
  id : Option String
  creator_name : Option String
  description : Option String
  captured_at : Option Int
  uris : Option (List StrDict)
  internal : Option Bool
  photo_url : Option String
  coordinates : Option Coordinates
  processing_status : Option String
  project_id : Option String
deriving DecidableEq

structure Comment where
  creator_name : Option String
  content : Option String
  created_at : Option Int
deriving DecidableEq

structure User where
  id : Option String
  first_name : Option String
  last_name : Option String
  email_address : Option String
  status : Option String
deriving DecidableEq

/-! ## Summary formatters -/

/-- The `Contact:` line of a project summary: present when
`contact and contact.get("name")` is truthy; phone and e-mail are appended
when truthy. -/
def contactLines (contact : Option StrDict) : List String :=
  match contact with
  | none => []
  | some c =>
    if c.isEmpty then []
    else if dictGetD c "name" "" = "" then []
    else
      let parts := [dictGetD c "name" ""]
        ++ (if dictGetD c "phone_number" "" ≠ "" then [dictGetD c "phone_number" ""] else [])
        ++ (if dictGetD c "email" "" ≠ "" then [dictGetD c "email" ""] else [])
      ["  Contact: " ++ pyJoin " | " parts]

/-- The `Integrations:` line of a project summary (absent when the list is
empty or missing). -/
def integrationLines (ints : Option (List StrDict)) : List String :=
  let l := ints.getD []
  if l.isEmpty then []
  else ["  Integrations: " ++
        pyJoin ", " (l.map (fun i =>
          dictGetD i "type" "?" ++ (":" ++ dictGetD i "relation_id" "?")))]

/-- The line list assembled by `_format_project_summary` before joining. -/
def _format_project_summary_lines (p : Project) : List String :=
  let name := pyOr p.name "Unnamed"
  let pid := getD p.id "?"
  let status := getD p.status "?"
  let archived := if p.archived.getD false then " [ARCHIVED]" else ""
  let url := getD p.project_url ""
  let notepad := getD p.notepad ""
  ["**" ++ (name ++ ("** (ID: " ++ (pid ++ (")" ++ archived)))),
   "  Status: " ++ status,
   "  Address: " ++ _format_address p.address,
   "  Created: " ++ (_unix_to_str p.created_at ++ (" | Updated: " ++ _unix_to_str p.updated_at))]
  ++ (if url ≠ "" then ["  URL: " ++ url] else [])
  ++ (if notepad ≠ "" then
        ["  Notepad: " ++ (pyTake notepad 200 ++ (if 200 < pyLen notepad then "..." else ""))]
      else [])
  ++ contactLines p.primary_contact
  ++ integrationLines p.integrations

/-- `_format_project_summary(project)`. -/
def _format_project_summary (p : Project) : String :=
  pyJoin "\n" (_format_project_summary_lines p)

/-- The line list assembled by `_format_photo_summary` before joining. -/
def _format_photo_summary_lines (ph : Photo) : List String :=
  let pid := getD ph.id "?"
  let creator := getD ph.creator_name "Unknown"
  let desc := getD ph.description ""
  let url := _get_photo_url (ph.uris.getD []) "web"
  let internal := if ph.internal.getD false then " [INTERNAL]" else ""
  let link := getD ph.photo_url ""
  ["Photo " ++ (pid ++ (internal ++ (" — by " ++ (creator ++ (" on " ++ _unix_to_str ph.captured_at)))))]
  ++ (if desc ≠ "" then ["  Description: " ++ desc] else [])
  ++ ["  Image: " ++ url]
  ++ (if link ≠ "" then ["  Web: " ++ link] else [])

/-- `_format_photo_summary(photo)`. -/
def _format_photo_summary (ph : Photo) : String :=
  pyJoin "\n" (_format_photo_summary_lines ph)

/-! ## Transport and error classification

`httpx` faults and `ValueError` are the exception types the module
distinguishes; any other exception falls to the generic branch carrying its
type name. -/

inductive Exc where
  | httpStatusError (status : Int) (body : String)
  | timeoutException
  | connectError (detail : String)
  | valueError (msg : String)
  | other (name : String) (detail : String)
deriving DecidableEq

/-- `_handle_api_error(e)`. -/
def _handle_api_error : Exc → String
  | .httpStatusError status body =>
    if status = 401 then
      "Error: Authentication failed. Check your COMPANYCAM_API_TOKEN."
    else if status = 403 then
      "Error: Permission denied. Ensure your account has API access (Pro+ plan, Admin role)."
    else if status = 404 then
      "Error: Resource not found. Check the ID is correct."
    else if status = 429 then
      "Error: Rate limit exceeded. Wait a moment and retry."
    else
      "Error: API returned " ++ (toString status ++ (". Response: " ++ pyTake body 500))
  | .timeoutException => "Error: Request timed out. Try again."
  | .connectError d => "Error: ConnectError: " ++ d
  | .valueError m => "Error: " ++ m
  | .other n d => "Error: " ++ (n ++ (": " ++ d))

/-- The `ValueError` message raised by `_get_headers` when no token is
configured. -/
def tokenErrMsg : String :=
  "COMPANYCAM_API_TOKEN environment variable is not set. Generate a token at app.companycam.com/access_tokens"

inductive QueryVal where
  | qi (i : Int)
  | qs (s : String)
deriving DecidableEq

/-- Request bodies posted by the write operations, with the exact JSON
nesting of the source. -/
inductive ReqBody where
  | commentBody (content : String)
  | tagBody (display_values : List String)
  | labelsBody (labels : List String)
  | notepadBody (notepad : String)
deriving DecidableEq

inductive Request where
  | get (path : String) (params : List (String × QueryVal))
  | post (path : String) (body : ReqBody)
  | put (path : String) (body : ReqBody)
deriving DecidableEq

/-- The process environment of one invocation: the configured token, the
local UTC offset in seconds (used by naive `datetime.timestamp()`), and the
outcome the transport would produce for the operation's request.  `α` is the
parsed-JSON type of the response. -/
structure Env (α : Type) where
  api_token : String
  tz_offset : Int
  transport : Except Exc α

/-- One `_api_get`/`_api_post`/`_api_put` call: `_get_headers()` is evaluated
before the request goes out, so a missing token raises `ValueError` with
zero requests issued; otherwise exactly one request is issued and the
transport outcome is returned.  The first component lists the requests that
actually went out. -/
def apiCall {α : Type} (env : Env α) (req : Request) :
    List Request × Except Exc α :=
  if env.api_token = "" then
    ([], .error (.valueError tokenErrMsg))
  else
    ([req], env.transport)

/-! ## Operations

Each `@mcp.tool` handler becomes a function from its validated input and the
environment to the pair (requests issued, result string).  The `try/except`
of the source is the outer `match`: an `Except.error` from the transport (or
from parameter translation) is classified by `_handle_api_error` and
returned as the result. -/

/-- The per-project block appended inside the `for` loop of
`cc_search_projects`: the summary followed by an empty line. -/
def projectBlocks : List Project → List String
  | [] => []
  | p :: ps => _format_project_summary p :: "" :: projectBlocks ps

/-- The pagination hint of `cc_search_projects`. -/
def moreResultsHint (page : Int) : String :=
  "_More results may be available on page " ++ (toString (page + 1) ++ "._")

/-- The line list of a successful, non-empty `cc_search_projects` response. -/
def searchProjectsLines (params : SearchProjectsInput) (data : List Project) :
    List String :=
  ("**Found " ++ (toString data.length ++ (" project(s) matching \x27" ++
      (params.query ++ ("\x27** (page " ++ (toString params.page ++ "):\n"))))))
  :: projectBlocks data
  ++ (if (data.length : Int) = params.per_page then [moreResultsHint params.page] else [])

def cc_search_projects (params : SearchProjectsInput)
    (env : Env (List Project)) : List Request × String :=
  let req := Request.get "/projects"
    [("query", .qs params.query), ("page", .qi params.page),
     ("per_page", .qi params.per_page)]
  match apiCall env req with
  | (reqs, .error e) => (reqs, _handle_api_error e)
  | (reqs, .ok data) =>
    if data.isEmpty then
      (reqs, "No projects found matching \x27" ++ (params.query ++ "\x27."))
    else
      (reqs, pyJoin "\n" (searchProjectsLines params data))

def cc_get_project (params : GetProjectInput) (env : Env Project) :
    List Request × String :=
  match apiCall env (.get ("/projects/" ++ params.project_id) []) with
  | (reqs, .error e) => (reqs, _handle_api_error e)
  | (reqs, .ok project) => (reqs, _format_project_summary project)

/-- Date-filter translation of `cc_list_project_photos`: a supplied truthy
date string is converted by
`str(int(datetime.fromisoformat(s.replace("Z", "+00:00")).timestamp()))`
and appended to the query; an unparsable string raises `ValueError` before
any request is issued. -/
def appendDateParam (acc : List (String × QueryVal)) (key : String)
    (v : Option String) (tz : Int) :
    Except Exc (List (String × QueryVal)) :=
  match v with
  | none => .ok acc
  | some s =>
    if s = "" then .ok acc
    else
      match dateParamToTimestamp? s tz with
      | some ts => .ok (acc ++ [(key, .qs (toString ts))])
      | none => .error (.valueError ("Invalid isoformat string: \x27" ++ (s ++ "\x27")))

/-- A truthy id filter is appended under its array-style key. -/
def appendIdParam (acc : List (String × QueryVal)) (key : String)
    (v : Option String) : List (String × QueryVal) :=
  match v with
  | none => acc
  | some s => if s = "" then acc else acc ++ [(key, .qs s)]

/-- The wire query of `cc_list_project_photos`, in the source's insertion
order: page, per_page, start_date, end_date, user_ids[], tag_ids[]. -/
def buildPhotoParams (params : ListProjectPhotosInput) (tz : Int) :
    Except Exc (List (String × QueryVal)) :=
  match appendDateParam
      [("page", .qi params.page), ("per_page", .qi params.per_page)]
      "start_date" params.start_date tz with
  | .error e => .error e
  | .ok a1 =>
    match appendDateParam a1 "end_date" params.end_date tz with
    | .error e => .error e
    | .ok a2 =>
      .ok (appendIdParam (appendIdParam a2 "user_ids[]" params.user_id)
            "tag_ids[]" params.tag_id)

/-- The per-photo block appended inside the `for` loop of
`cc_list_project_photos`. -/
def photoBlocks : List Photo → List String
  | [] => []
  | ph :: ps => _format_photo_summary ph :: "" :: photoBlocks ps

/-- The pagination hint of `cc_list_project_photos`. -/
def morePhotosHint (page : Int) : String :=
  "_More photos may be available on page " ++ (toString (page + 1) ++ "._")

/-- The line list of a successful, non-empty `cc_list_project_photos`
response. -/
def listPhotosLines (params : ListProjectPhotosInput) (data : List Photo) :
    List String :=
  ("**" ++ (toString data.length ++ (" photo(s)** for project " ++
      (params.project_id ++ (" (page " ++ (toString params.page ++ "):\n"))))))
  :: photoBlocks data
  ++ (if (data.length : Int) = params.per_page then [morePhotosHint params.page] else [])

def cc_list_project_photos (params : ListProjectPhotosInput)
    (env : Env (List Photo)) : List Request × String :=
  match buildPhotoParams params env.tz_offset with
  | .error e => ([], _handle_api_error e)
  | .ok qs =>
    match apiCall env (.get ("/projects/" ++ (params.project_id ++ "/photos")) qs) with
    | (reqs, .error e) => (reqs, _handle_api_error e)
    | (reqs, .ok data) =>
      if data.isEmpty then
        (reqs, "No photos found for project " ++
          (params.project_id ++ " with the given filters."))
      else
        (reqs, pyJoin "\n" (listPhotosLines params data))

/-- One `Location:` line of `cc_get_photo`. -/
def locLine (d : StrDict) : String :=
  "  Location: " ++ (dictGetD d "lat" "?" ++ (", " ++ dictGetD d "lon" "?"))

/-- The `Location:` lines of `cc_get_photo` (`if coords:` skips a falsy
value). -/
def coordLines (c : Option Coordinates) : List String :=
  match c with
  | none => []
  | some (.one d) => if d.isEmpty then [] else [locLine d]
  | some (.many l) => if l.isEmpty then [] else l.map locLine

/-- One entry of the `All sizes:` listing. -/
def uriLine (u : StrDict) : String :=
  "    " ++ (dictGetD u "type" "?" ++ (": " ++ entryUrl u))

/-- The full line list of a successful `cc_get_photo`. -/
def getPhotoLines (photo : Photo) : List String :=
  _format_photo_summary photo
  :: coordLines photo.coordinates
  ++ (let uris := photo.uris.getD []
      if 1 < uris.length then "  All sizes:" :: uris.map uriLine else [])
  ++ ["  Processing: " ++ getD photo.processing_status "?",
      "  Project ID: " ++ getD photo.project_id "?"]

def cc_get_photo (params : GetPhotoInput) (env : Env Photo) :
    List Request × String :=
  match apiCall env (.get ("/photos/" ++ params.photo_id) []) with
  | (reqs, .error e) => (reqs, _handle_api_error e)
  | (reqs, .ok photo) => (reqs, pyJoin "\n" (getPhotoLines photo))

/-- The bullet used for both labels and tags. -/
def tagBullet (t : StrDict) : String :=
  "  • " ++ (dictGetD t "display_value" "?" ++
    (" (ID: " ++ (dictGetD t "id" "?" ++ ")")))

/-- The line list of a successful, non-empty `cc_list_project_labels`. -/
def labelsLines (params : ListProjectLabelsInput) (data : List StrDict) :
    List String :=
  ("**" ++ (toString data.length ++ (" label(s)** on project " ++
      (params.project_id ++ ":"))))
  :: data.map tagBullet

def cc_list_project_labels (params : ListProjectLabelsInput)
    (env : Env (List StrDict)) : List Request × String :=
  match apiCall env (.get ("/projects/" ++ (params.project_id ++ "/labels")) []) with
  | (reqs, .error e) => (reqs, _handle_api_error e)
  | (reqs, .ok data) =>
    if data.isEmpty then
      (reqs, "No labels on project " ++ (params.project_id ++ "."))
    else
      (reqs, pyJoin "\n" (labelsLines params data))

/-- One comment line of `cc_list_project_comments`. -/
def commentLine (c : Comment) : String :=
  "  [" ++ (_unix_to_str c.created_at ++ ("] **" ++
    (getD c.creator_name "Unknown" ++ ("**: " ++ getD c.content ""))))

/-- The line list of a successful, non-empty `cc_list_project_comments`. -/
def commentsLines (params : ListProjectCommentsInput) (data : List Comment) :
    List String :=
  ("**" ++ (toString data.length ++ (" comment(s)** on project " ++
      (params.project_id ++ ":\n"))))
  :: data.map commentLine

def cc_list_project_comments (params : ListProjectCommentsInput)
    (env : Env (List Comment)) : List Request × String :=
  match apiCall env
      (.get ("/projects/" ++ (params.project_id ++ "/comments"))
        [("page", .qi params.page), ("per_page", .qi params.per_page)]) with
  | (reqs, .error e) => (reqs, _handle_api_error e)
  | (reqs, .ok data) =>
    if data.isEmpty then
      (reqs, "No comments on project " ++ (params.project_id ++ "."))
    else
      (reqs, pyJoin "\n" (commentsLines params data))

/-- One user bullet of `cc_list_users`. -/
def userBullet (u : User) : String :=
  let name := pyStrip (getD u.first_name "" ++ (" " ++ getD u.last_name ""))
  "  • " ++ (name ++ (" — ID: " ++ (getD u.id "?" ++
    (" | " ++ (getD u.email_address "" ++ (" | " ++ getD u.status "?"))))))

/-- The line list of a successful, non-empty `cc_list_users`. -/
def usersLines (data : List User) : List String :=
  ("**" ++ (toString data.length ++ " user(s):**\n")) :: data.map userBullet

def cc_list_users (params : ListUsersInput) (env : Env (List User)) :
    List Request × String :=
  match apiCall env
      (.get "/users" [("page", .qi params.page), ("per_page", .qi params.per_page)]) with
  | (reqs, .error e) => (reqs, _handle_api_error e)
  | (reqs, .ok data) =>
    if data.isEmpty then (reqs, "No users found.")
    else (reqs, pyJoin "\n" (usersLines data))

/-- The line list of a successful, non-empty `cc_list_tags`. -/
def tagsLines (data : List StrDict) : List String :=
  ("**" ++ (toString data.length ++ " tag(s):**\n")) :: data.map tagBullet

def cc_list_tags (params : ListTagsInput) (env : Env (List StrDict)) :
    List Request × String :=
  match apiCall env
      (.get "/tags" [("page", .qi params.page), ("per_page", .qi params.per_page)]) with
  | (reqs, .error e) => (reqs, _handle_api_error e)
  | (reqs, .ok data) =>
    if data.isEmpty then (reqs, "No tags found.")
    else (reqs, pyJoin "\n" (tagsLines data))

def cc_add_project_comment (params : AddProjectCommentInput)
    (env : Env Comment) : List Request × String :=
  match apiCall env
      (.post ("/projects/" ++ (params.project_id ++ "/comments"))
        (.commentBody params.content)) with
  | (reqs, .error e) => (reqs, _handle_api_error e)
  | (reqs, .ok data) =>
    (reqs, "Comment added to project " ++ (params.project_id ++ (" by " ++
      (getD data.creator_name "Unknown" ++ (" at " ++
      (_unix_to_str data.created_at ++ (":\n\"" ++ (getD data.content "" ++ "\""))))))))

/-- The response of `POST /photos/{id}/tags` as inspected by
`isinstance(data, list)`. -/
inductive TagsResp where
  | list (l : List StrDict)
  | nonList
deriving DecidableEq

def cc_add_photo_tags (params : AddPhotoTagsInput) (env : Env TagsResp) :
    List Request × String :=
  match apiCall env
      (.post ("/photos/" ++ (params.photo_id ++ "/tags"))
        (.tagBody params.tags)) with
  | (reqs, .error e) => (reqs, _handle_api_error e)
  | (reqs, .ok data) =>
    let tag_names :=
      match data with
      | .list l => if l.isEmpty then params.tags
                   else l.map (fun t => dictGetD t "display_value" "?")
      | .nonList => params.tags
    (reqs, "Tags added to photo " ++ (params.photo_id ++ (": " ++ pyJoin ", " tag_names)))

def cc_add_project_labels (params : AddProjectLabelsInput) (env : Env Unit) :
    List Request × String :=
  match apiCall env
      (.post ("/projects/" ++ (params.project_id ++ "/labels"))
        (.labelsBody params.labels)) with
  | (reqs, .error e) => (reqs, _handle_api_error e)
  | (reqs, .ok _) =>
    (reqs, "Labels added to project " ++ (params.project_id ++ (": " ++
      pyJoin ", " params.labels)))

def cc_update_project_notepad (params : UpdateNotepadInput) (env : Env Unit) :
    List Request × String :=
  match apiCall env
      (.put ("/projects/" ++ (params.project_id ++ "/notepad"))
        (.notepadBody params.notepad)) with
  | (reqs, .error e) => (reqs, _handle_api_error e)
  | (reqs, .ok _) =>
    (reqs, "Notepad updated for project " ++ (params.project_id ++
      (". New content (" ++ (toString (pyLen params.notepad) ++ " chars)."))))

def cc_add_photo_comment (params : AddPhotoCommentInput) (env : Env Comment) :
    List Request × String :=
  match apiCall env
      (.post ("/photos/" ++ (params.photo_id ++ "/comments"))
        (.commentBody params.content)) with
  | (reqs, .error e) => (reqs, _handle_api_error e)
  | (reqs, .ok data) =>
    (reqs, "Comment added to photo " ++ (params.photo_id ++ (" by " ++
      (getD data.creator_name "Unknown" ++ (":\n\"" ++
      (getD data.content "" ++ "\""))))))

/-- `Except` success test (pydantic validation succeeded). -/
def isAccepted {ε α : Type} : Except ε α → Bool
  | .ok _ => true
  | .error _ => false

/-! ## Helper lemmas -/

/-- Strings with equal character lists are equal. -/
theorem strExt {a b : String} (h : a.data = b.data) : a = b := by
  cases a; cases b; cases h; rfl

/-- Appending on the right preserves the first character. -/
theorem headOfAppend (s t : String) (c : Char) (h : s.data.head? = some c) :
    (s ++ t).data.head? = some c := by
  rw [String.data_append]
  cases hs : s.data with
  | nil => rw [hs] at h; cases h
  | cons a l => rw [hs] at h; simpa using h

/-- `pyJoin` preserves the first character of a non-empty leading string. -/
theorem headOfPyJoin (sep a : String) (as : List String) (c : Char)
    (h : a.data.head? = some c) :
    (pyJoin sep (a :: as)).data.head? = some c := by
  cases as with
  | nil => exact h
  | cons b bs => exact headOfAppend a (sep ++ pyJoin sep (b :: bs)) c h

/-- Every project summary starts with `*` (its first line opens with
`**{name}**`). -/
theorem projectSummaryHead (p : Project) :
    (_format_project_summary p).data.head? = some '*' := by
  simp only [_format_project_summary, _format_project_summary_lines,
    List.cons_append]
  exact headOfPyJoin _ _ _ _ (headOfAppend "**" _ '*' rfl)

/-- Every photo summary starts with `P` (its first line opens with
`Photo `). -/
theorem photoSummaryHead (ph : Photo) :
    (_format_photo_summary ph).data.head? = some 'P' := by
  simp only [_format_photo_summary, _format_photo_summary_lines,
    List.cons_append]
  exact headOfPyJoin _ _ _ _ (headOfAppend "Photo " _ 'P' rfl)

/-- The search pagination hint starts with `_`. -/
theorem moreResultsHintHead (page : Int) :
    (moreResultsHint page).data.head? = some '_' :=
  headOfAppend _ _ _ rfl

/-- The photos pagination hint starts with `_`. -/
theorem morePhotosHintHead (page : Int) :
    (morePhotosHint page).data.head? = some '_' :=
  headOfAppend _ _ _ rfl

/-- No string starting with `_` occurs among the summary/blank-line blocks of
a project listing. -/
theorem notMemProjectBlocks (s : String) (hs : s.data.head? = some '_') :
    ∀ data : List Project, s ∉ projectBlocks data := by
  intro data
  induction data with
  | nil => simp [projectBlocks]
  | cons p ps ih =>
    simp only [projectBlocks, List.mem_cons, not_or]
    refine ⟨?_, ?_, ih⟩
    · intro h
      rw [h, projectSummaryHead p] at hs
      cases hs
    · intro h
      rw [h] at hs
      cases hs

/-- No string starting with `_` occurs among the summary/blank-line blocks of
a photo listing. -/
theorem notMemPhotoBlocks (s : String) (hs : s.data.head? = some '_') :
    ∀ data : List Photo, s ∉ photoBlocks data := by
  intro data
  induction data with
  | nil => simp [photoBlocks]
  | cons p ps ih =>
    simp only [photoBlocks, List.mem_cons, not_or]
    refine ⟨?_, ?_, ih⟩
    · intro h
      rw [h, photoSummaryHead p] at hs
      cases hs
    · intro h
      rw [h] at hs
      cases hs

/-- The hint line occurs in a search listing exactly when the page is full. -/
theorem searchHintIff (params : SearchProjectsInput) (data : List Project) :
    moreResultsHint params.page ∈ searchProjectsLines params data ↔
      (data.length : Int) = params.per_page := by
  constructor
  · intro h
    by_contra hc
    simp only [searchProjectsLines, if_neg hc, List.append_nil, List.mem_cons] at h
    rcases h with h | h
    · have := moreResultsHintHead params.page
      rw [h, headOfAppend "**Found " _ '*' rfl] at this
      cases this
    · exact notMemProjectBlocks _ (moreResultsHintHead params.page) data h
  · intro h
    simp [searchProjectsLines, if_pos h]

/-- The hint line occurs in a photo listing exactly when the page is full. -/
theorem photosHintIff (params : ListProjectPhotosInput) (data : List Photo) :
    morePhotosHint params.page ∈ listPhotosLines params data ↔
      (data.length : Int) = params.per_page := by
  constructor
  · intro h
    by_contra hc
    simp only [listPhotosLines, if_neg hc, List.append_nil, List.mem_cons] at h
    rcases h with h | h
    · have := morePhotosHintHead params.page
      rw [h, headOfAppend "**" _ '*' rfl] at this
      cases this
    · exact notMemPhotoBlocks _ (morePhotosHintHead params.page) data h
  · intro h
    simp [listPhotosLines, if_pos h]

/-- No line of a user listing starts with `_`. -/
theorem usersLinesNoUnderscore (data : List User) :
    ∀ l ∈ usersLines data, l.data.head? ≠ some '_' := by
  intro l hl
  simp only [usersLines, List.mem_cons, List.mem_map] at hl
  rcases hl with h | ⟨u, _, h⟩
  · rw [h, headOfAppend "**" _ '*' rfl]
    intro hc; cases hc
  · rw [← h]
    simp only [userBullet]
    rw [headOfAppend "  • " _ ' ' rfl]
    intro hc; cases hc

/-- No line of a tag listing starts with `_`. -/
theorem tagsLinesNoUnderscore (data : List StrDict) :
    ∀ l ∈ tagsLines data, l.data.head? ≠ some '_' := by
  intro l hl
  simp only [tagsLines, List.mem_cons, List.mem_map] at hl
  rcases hl with h | ⟨t, _, h⟩
  · rw [h, headOfAppend "**" _ '*' rfl]
    intro hc; cases hc
  · rw [← h]
    simp only [tagBullet]
    rw [headOfAppend "  • " _ ' ' rfl]
    intro hc; cases hc

/-- No line of a comment listing starts with `_`. -/
theorem commentsLinesNoUnderscore (params : ListProjectCommentsInput)
    (data : List Comment) :
    ∀ l ∈ commentsLines params data, l.data.head? ≠ some '_' := by
  intro l hl
  simp only [commentsLines, List.mem_cons, List.mem_map] at hl
  rcases hl with h | ⟨c, _, h⟩
  · rw [h, headOfAppend "**" _ '*' rfl]
    intro hc; cases hc
  · rw [← h]
    simp only [commentLine]
    rw [headOfAppend "  [" _ ' ' rfl]
    intro hc; cases hc

/-- A `pyJoin` of a list whose head is a non-empty string is non-empty. -/
theorem pyJoinNeEmpty (sep x : String) (xs : List String) (hx : x ≠ "") :
    pyJoin sep (x :: xs) ≠ "" := by
  cases xs with
  | nil => simpa [pyJoin] using hx
  | cons b bs =>
    simp only [pyJoin]
    intro h
    have hdata : (x ++ (sep ++ pyJoin sep (b :: bs))).data = [] :=
      congrArg String.data h
    rw [String.data_append] at hdata
    have hx0 : x.data = [] := (List.append_eq_nil.mp hdata).1
    exact hx (strExt hx0)

/-! ## Claim theorems -/

/-- C9: the timestamp formatter `_unix_to_str` treats the integer 0 (the Unix
epoch, a valid timestamp) the same as an absent timestamp: for `some 0` as
well as `none` it returns `"N/A"` rather than the epoch rendering
`"1970-01-01 00:00:00 UTC"` that `strftimeUTC` would produce. -/
theorem c9_epoch_zero_is_na :
    _unix_to_str (some 0) = "N/A" ∧ _unix_to_str none = "N/A" ∧
    strftimeUTC 0 = "1970-01-01 00:00:00 UTC" ∧
    _unix_to_str (some 0) ≠ strftimeUTC 0 :=
  ⟨rfl, rfl, by decide, by decide⟩

/-- C2 counterexample: a non-empty address dict all of whose fields are empty
(here `{"city": ""}`) makes `_format_address` return the empty string, not
the `"No address"` token — Python's `if not addr` only catches `None` and the
empty dict. -/
theorem c2_counterexample :
    _format_address (some [("city", "")]) = "" ∧
    _format_address (some [("city", "")]) ≠ "No address" :=
  ⟨rfl, by decide⟩

/-- C2 (amended): `_format_address` returns `"No address"` exactly when the
address is absent or the dict itself is empty; for a non-empty dict it joins
the truthy fields with `", "` (which is the empty string when all five fields
are empty or absent), and the result is non-empty whenever at least one field
is non-empty. -/
theorem c2_address_formatting :
    _format_address none = "No address" ∧
    _format_address (some []) = "No address" ∧
    (∀ a : StrDict, a ≠ [] →
        _format_address (some a) =
          pyJoin ", " ((addrParts a).filter (fun p => p != ""))) ∧
    (∀ a : StrDict, (∃ f ∈ addrParts a, f ≠ "") →
        _format_address (some a) ≠ "") := by
  refine ⟨rfl, rfl, ?_, ?_⟩
  · intro a ha
    have hie : a.isEmpty = false := by
      cases a with
      | nil => exact absurd rfl ha
      | cons x xs => rfl
    simp [_format_address, hie]
  · intro a h
    obtain ⟨f, hf, hfne⟩ := h
    have ha : a ≠ [] := by
      intro hnil
      subst hnil
      have : addrParts [] = ["", "", "", "", ""] := rfl
      rw [this] at hf
      simp at hf
      exact hfne hf
    have hie : a.isEmpty = false := by
      cases a with
      | nil => exact absurd rfl ha
      | cons x xs => rfl
    have heq : _format_address (some a) =
        pyJoin ", " ((addrParts a).filter (fun p => p != "")) := by
      simp [_format_address, hie]
    rw [heq]
    have hfmem : f ∈ (addrParts a).filter (fun p => p != "") :=
      List.mem_filter.mpr ⟨hf, by simp [hfne]⟩
    cases hflt : (addrParts a).filter (fun p => p != "") with
    | nil => rw [hflt] at hfmem; cases hfmem
    | cons x xs =>
      have hxmem : x ∈ (addrParts a).filter (fun p => p != "") := by
        rw [hflt]; exact List.mem_cons_self x xs
      have hx : x ≠ "" := by
        have := List.of_mem_filter hxmem
        simpa using this
      exact pyJoinNeEmpty ", " x xs hx

/-- C2 witness: a two-field address goes through the joined-fields branch and
is non-empty. -/
theorem c2_witness :
    _format_address (some [("city", "Lincoln"), ("state", "NE")]) =
      pyJoin ", " ((addrParts [("city", "Lincoln"), ("state", "NE")]).filter
        (fun p => p != "")) ∧
    _format_address (some [("city", "Lincoln"), ("state", "NE")]) ≠ "" :=
  ⟨c2_address_formatting.2.2.1 [("city", "Lincoln"), ("state", "NE")] (by decide),
   c2_address_formatting.2.2.2 [("city", "Lincoln"), ("state", "NE")]
     ⟨"Lincoln", by decide, by decide⟩⟩

/-- C7 counterexample: in an entry whose `url` key is present but empty
(`{"type": "web", "url": "", "uri": "C"}`), the present `url` value does not
win: Python `uri.get("url") or uri.get("uri", "")` is truthiness-based, so
the result is the `uri` value `"C"`. -/
theorem c7_counterexample :
    dictGet? [("type", "web"), ("url", ""), ("uri", "C")] "url" = some "" ∧
    _get_photo_url [[("type", "web"), ("url", ""), ("uri", "C")]] "web" = "C" ∧
    ("C" : String) ≠ "" :=
  ⟨rfl, rfl, by decide⟩

/-- C7 (amended): `_get_photo_url` picks the first entry whose `type` equals
the requested size, falls back to the first entry when none matches, and
yields `"No URL available"` on an empty list; the three concrete examples
behave as claimed.  Within an entry, the `url` key wins only when its value
is present and non-empty; a missing or empty `url` falls through to the `uri`
value (empty string when that too is absent). -/
theorem c7_photo_url_selection :
    _get_photo_url [[("type", "thumbnail"), ("url", "A")],
                    [("type", "web"), ("url", "B")]] "web" = "B" ∧
    _get_photo_url [] "web" = "No URL available" ∧
    _get_photo_url [[("type", "thumbnail"), ("uri", "C")]] "web" = "C" ∧
    (∀ (uris : List StrDict) (size : String) (u : StrDict),
        uris.find? (fun v => dictGet? v "type" == some size) = some u →
        _get_photo_url uris size = entryUrl u) ∧
    (∀ (u : StrDict) (us : List StrDict) (size : String),
        (u :: us).find? (fun v => dictGet? v "type" == some size) = none →
        _get_photo_url (u :: us) size = entryUrl u) ∧
    (∀ (u : StrDict) (s : String),
        dictGet? u "url" = some s → s ≠ "" → entryUrl u = s) ∧
    (∀ u : StrDict, dictGet? u "url" = none ∨ dictGet? u "url" = some "" →
        entryUrl u = dictGetD u "uri" "") := by
  refine ⟨rfl, rfl, rfl, ?_, ?_, ?_, ?_⟩
  · intro uris size u h
    simp [_get_photo_url, h]
  · intro u us size h
    simp [_get_photo_url, h]
  · intro u s h hne
    simp [entryUrl, pyOr, h, hne]
  · intro u h
    rcases h with h | h <;> simp [entryUrl, pyOr, h]

/-- C7 witness: a matching entry is selected and its non-empty `url` wins. -/
theorem c7_witness :
    _get_photo_url [[("type", "web"), ("url", "W")]] "web" =
      entryUrl [("type", "web"), ("url", "W")] ∧
    entryUrl [("type", "web"), ("url", "W")] = "W" :=
  ⟨c7_photo_url_selection.2.2.2.1 [[("type", "web"), ("url", "W")]] "web"
     [("type", "web"), ("url", "W")] rfl,
   c7_photo_url_selection.2.2.2.2.2.1 [("type", "web"), ("url", "W")] "W" rfl
     (by decide)⟩

/-- C5 counterexample: the label-listing input model declares no pagination
fields and forbids extras, so `per_page = 1` — which the claim says every
list operation accepts — is rejected for `cc_list_project_labels`. -/
theorem c5_counterexample :
    validateListProjectLabels
        [("project_id", RawVal.rstr "p1"), ("per_page", RawVal.rint 1)] =
      Except.error "extra inputs are not permitted" ∧
    isAccepted (validateListProjectLabels
        [("project_id", RawVal.rstr "p1"), ("per_page", RawVal.rint 1)]) = false :=
  ⟨rfl, rfl⟩

/-- C5 (amended): the five paginated list operations (project search, photo
listing, comment listing, user listing, tag listing) reject `per_page = 0`
and `per_page = 101` and accept the boundary values 1 and 100; the label
listing has no `per_page` field at all, so any supplied `per_page` —
including the boundary values — is rejected as an unknown field, while an
input without pagination fields is accepted. -/
theorem c5_per_page_bounds :
    isAccepted (validateSearchProjects [("query", .rstr "roof"), ("per_page", .rint 0)]) = false ∧
    isAccepted (validateSearchProjects [("query", .rstr "roof"), ("per_page", .rint 101)]) = false ∧
    isAccepted (validateSearchProjects [("query", .rstr "roof"), ("per_page", .rint 1)]) = true ∧
    isAccepted (validateSearchProjects [("query", .rstr "roof"), ("per_page", .rint 100)]) = true ∧
    isAccepted (validateListProjectPhotos [("project_id", .rstr "p1"), ("per_page", .rint 0)]) = false ∧
    isAccepted (validateListProjectPhotos [("project_id", .rstr "p1"), ("per_page", .rint 101)]) = false ∧
    isAccepted (validateListProjectPhotos [("project_id", .rstr "p1"), ("per_page", .rint 1)]) = true ∧
    isAccepted (validateListProjectPhotos [("project_id", .rstr "p1"), ("per_page", .rint 100)]) = true ∧
    isAccepted (validateListProjectComments [("project_id", .rstr "p1"), ("per_page", .rint 0)]) = false ∧
    isAccepted (validateListProjectComments [("project_id", .rstr "p1"), ("per_page", .rint 101)]) = false ∧
    isAccepted (validateListProjectComments [("project_id", .rstr "p1"), ("per_page", .rint 1)]) = true ∧
    isAccepted (validateListProjectComments [("project_id", .rstr "p1"), ("per_page", .rint 100)]) = true ∧
    isAccepted (validateListUsers [("per_page", .rint 0)]) = false ∧
    isAccepted (validateListUsers [("per_page", .rint 101)]) = false ∧
    isAccepted (validateListUsers [("per_page", .rint 1)]) = true ∧
    isAccepted (validateListUsers [("per_page", .rint 100)]) = true ∧
    isAccepted (validateListTags [("per_page", .rint 0)]) = false ∧
    isAccepted (validateListTags [("per_page", .rint 101)]) = false ∧
    isAccepted (validateListTags [("per_page", .rint 1)]) = true ∧
    isAccepted (validateListTags [("per_page", .rint 100)]) = true ∧
    isAccepted (validateListProjectLabels [("project_id", .rstr "p1"), ("per_page", .rint 1)]) = false ∧
    isAccepted (validateListProjectLabels [("project_id", .rstr "p1"), ("per_page", .rint 100)]) = false ∧
    isAccepted (validateListProjectLabels [("project_id", .rstr "p1")]) = true :=
  ⟨rfl, rfl, rfl, rfl, rfl, rfl, rfl, rfl, rfl, rfl, rfl, rfl, rfl, rfl, rfl,
   rfl, rfl, rfl, rfl, rfl, rfl, rfl, rfl⟩

/-- C1 counterexample: in a process whose local timezone is one hour east of
UTC (`tz_offset = 3600`), the date filter `"2025-01-15"` is converted to
`1736895600` — local midnight — and that value, not the UTC-midnight integer
`1736899200`, is placed in the issued request:
`datetime.fromisoformat` yields a naive datetime and naive
`datetime.timestamp()` uses the local timezone. -/
theorem c1_counterexample :
    dateParamToTimestamp? "2025-01-15" 3600 = some 1736895600 ∧
    (1736895600 : Int) ≠ 1736899200 ∧
    cc_list_project_photos ⟨"p1", some "2025-01-15", none, none, none, 1, 25⟩
        ⟨"tok", 3600, .ok []⟩ =
      ([Request.get "/projects/p1/photos"
          [("page", .qi 1), ("per_page", .qi 25), ("start_date", .qs "1736895600")]],
       "No photos found for project p1 with the given filters.") :=
  ⟨by decide, by decide, by decide⟩

/-- C1 (amended): before the request is issued, a `start_date` or `end_date`
of `"2025-01-15"` is converted to the Unix-seconds integer of 2025-01-15
midnight in the process's local timezone — `1736899200 - tz_offset` — and
placed in the query as a decimal string; this equals the UTC-midnight integer
`1736899200` exactly when the local offset is zero. -/
theorem c1_date_conversion : ∀ tz : Int,
    dateParamToTimestamp? "2025-01-15" tz = some (1736899200 - tz) ∧
    buildPhotoParams ⟨"p1", some "2025-01-15", none, none, none, 1, 25⟩ tz =
      .ok [("page", .qi 1), ("per_page", .qi 25),
           ("start_date", .qs (toString (1736899200 - tz)))] ∧
    buildPhotoParams ⟨"p1", none, some "2025-01-15", none, none, 1, 25⟩ tz =
      .ok [("page", .qi 1), ("per_page", .qi 25),
           ("end_date", .qs (toString (1736899200 - tz)))] ∧
    dateParamToTimestamp? "2025-01-15" 0 = some 1736899200 := by
  intro tz
  have hparse : fromisoformatDate? (replaceZ "2025-01-15") = some (2025, 1, 15) := by
    decide
  have hdays : daysFromCivil 2025 1 15 * 86400 = 1736899200 := by decide
  have hts : dateParamToTimestamp? "2025-01-15" tz = some (1736899200 - tz) := by
    simp [dateParamToTimestamp?, hparse, hdays]
  refine ⟨hts, ?_, ?_, by decide⟩
  · simp [buildPhotoParams, appendDateParam, appendIdParam, hts]
  · simp [buildPhotoParams, appendDateParam, appendIdParam, hts]

/-- C10: default page sizes — 25 (`DEFAULT_PER_PAGE`) for project search,
photo listing and comment listing, 100 for user and tag listing; the label
listing model declares no pagination fields, so any input supplying `page`
or `per_page` is rejected outright. -/
theorem c10_default_page_sizes :
    (∀ r : RawInput, (∃ kv ∈ r, kv.1 = "page" ∨ kv.1 = "per_page") →
        ∃ e, validateListProjectLabels r = .error e) ∧
    validateSearchProjects [("query", .rstr "roof")] = .ok ⟨"roof", 1, 25⟩ ∧
    validateListProjectPhotos [("project_id", .rstr "p1")] =
      .ok ⟨"p1", none, none, none, none, 1, 25⟩ ∧
    validateListProjectComments [("project_id", .rstr "p1")] = .ok ⟨"p1", 1, 25⟩ ∧
    validateListUsers [] = .ok ⟨1, 100⟩ ∧
    validateListTags [] = .ok ⟨1, 100⟩ ∧
    validateListProjectLabels [("project_id", .rstr "p1")] = .ok ⟨"p1"⟩ ∧
    DEFAULT_PER_PAGE = 25 := by
  refine ⟨?_, rfl, rfl, rfl, rfl, rfl, rfl, rfl⟩
  intro r h
  obtain ⟨kv, hm, hk⟩ := h
  have hmem : ¬ (["project_id"] : List String).contains kv.1 = true := by
    rcases hk with h | h <;> rw [h] <;> decide
  have hko : keysOk r ["project_id"] = false := by
    cases hcase : keysOk r ["project_id"] with
    | false => rfl
    | true =>
      simp only [keysOk] at hcase
      exact absurd (List.all_eq_true.mp hcase kv hm) hmem
  refine ⟨"extra inputs are not permitted", ?_⟩
  simp [validateListProjectLabels, hko]

/-- C10 witness: supplying `per_page` to the label listing is rejected. -/
theorem c10_witness :
    ∃ e, validateListProjectLabels [("per_page", RawVal.rint 1)] = .error e :=
  c10_default_page_sizes.1 [("per_page", RawVal.rint 1)]
    ⟨("per_page", RawVal.rint 1), by decide, Or.inr rfl⟩

/-- C3 counterexample: with no token configured, an operation does return a
fixed error with zero requests issued, but the message is the module's
missing-token text, not the literal string "authentication not configured". -/
theorem c3_counterexample :
    cc_search_projects ⟨"roof", 1, 25⟩ ⟨"", 0, .ok []⟩ =
      ([], "Error: COMPANYCAM_API_TOKEN environment variable is not set. Generate a token at app.companycam.com/access_tokens") ∧
    ("Error: COMPANYCAM_API_TOKEN environment variable is not set. Generate a token at app.companycam.com/access_tokens" : String) ≠
      "authentication not configured" :=
  ⟨by decide, by decide⟩

/-- C3 (amended): when no bearer token is configured, every one of the
thirteen operations issues zero requests and returns the fixed
missing-credential message `"Error: " ++ tokenErrMsg` (for the photo listing,
provided its date filters translate; an untranslatable date filter fails
earlier, also with zero requests — see C8).  The credential check happens
inside the transport helpers, before any request goes out. -/
theorem c3_missing_token :
    (∀ (p : SearchProjectsInput) (env : Env (List Project)), env.api_token = "" →
        cc_search_projects p env = ([], "Error: " ++ tokenErrMsg)) ∧
    (∀ (p : GetProjectInput) (env : Env Project), env.api_token = "" →
        cc_get_project p env = ([], "Error: " ++ tokenErrMsg)) ∧
    (∀ (p : ListProjectPhotosInput) (env : Env (List Photo))
        (qs : List (String × QueryVal)),
        buildPhotoParams p env.tz_offset = .ok qs → env.api_token = "" →
        cc_list_project_photos p env = ([], "Error: " ++ tokenErrMsg)) ∧
    (∀ (p : GetPhotoInput) (env : Env Photo), env.api_token = "" →
        cc_get_photo p env = ([], "Error: " ++ tokenErrMsg)) ∧
    (∀ (p : ListProjectLabelsInput) (env : Env (List StrDict)), env.api_token = "" →
        cc_list_project_labels p env = ([], "Error: " ++ tokenErrMsg)) ∧
    (∀ (p : ListProjectCommentsInput) (env : Env (List Comment)), env.api_token = "" →
        cc_list_project_comments p env = ([], "Error: " ++ tokenErrMsg)) ∧
    (∀ (p : ListUsersInput) (env : Env (List User)), env.api_token = "" →
        cc_list_users p env = ([], "Error: " ++ tokenErrMsg)) ∧
    (∀ (p : ListTagsInput) (env : Env (List StrDict)), env.api_token = "" →
        cc_list_tags p env = ([], "Error: " ++ tokenErrMsg)) ∧
    (∀ (p : AddProjectCommentInput) (env : Env Comment), env.api_token = "" →
        cc_add_project_comment p env = ([], "Error: " ++ tokenErrMsg)) ∧
    (∀ (p : AddPhotoTagsInput) (env : Env TagsResp), env.api_token = "" →
        cc_add_photo_tags p env = ([], "Error: " ++ tokenErrMsg)) ∧
    (∀ (p : AddProjectLabelsInput) (env : Env Unit), env.api_token = "" →
        cc_add_project_labels p env = ([], "Error: " ++ tokenErrMsg)) ∧
    (∀ (p : UpdateNotepadInput) (env : Env Unit), env.api_token = "" →
        cc_update_project_notepad p env = ([], "Error: " ++ tokenErrMsg)) ∧
    (∀ (p : AddPhotoCommentInput) (env : Env Comment), env.api_token = "" →
        cc_add_photo_comment p env = ([], "Error: " ++ tokenErrMsg)) := by
  refine ⟨?_, ?_, ?_, ?_, ?_, ?_, ?_, ?_, ?_, ?_, ?_, ?_, ?_⟩
  · intro p env h; simp [cc_search_projects, apiCall, h, _handle_api_error]
  · intro p env h; simp [cc_get_project, apiCall, h, _handle_api_error]
  · intro p env qs hb h
    simp [cc_list_project_photos, hb, apiCall, h, _handle_api_error]
  · intro p env h; simp [cc_get_photo, apiCall, h, _handle_api_error]
  · intro p env h; simp [cc_list_project_labels, apiCall, h, _handle_api_error]
  · intro p env h; simp [cc_list_project_comments, apiCall, h, _handle_api_error]
  · intro p env h; simp [cc_list_users, apiCall, h, _handle_api_error]
  · intro p env h; simp [cc_list_tags, apiCall, h, _handle_api_error]
  · intro p env h; simp [cc_add_project_comment, apiCall, h, _handle_api_error]
  · intro p env h; simp [cc_add_photo_tags, apiCall, h, _handle_api_error]
  · intro p env h; simp [cc_add_project_labels, apiCall, h, _handle_api_error]
  · intro p env h; simp [cc_update_project_notepad, apiCall, h, _handle_api_error]
  · intro p env h; simp [cc_add_photo_comment, apiCall, h, _handle_api_error]

/-- C3 witness: a get-project call with an empty token issues no request. -/
theorem c3_witness :
    cc_get_project ⟨"p1"⟩ ⟨"", 0, Except.error Exc.timeoutException⟩ =
      ([], "Error: " ++ tokenErrMsg) :=
  c3_missing_token.2.1 ⟨"p1"⟩ ⟨"", 0, Except.error Exc.timeoutException⟩ rfl

/-- The classifier's fixed 404 message (independent of the response body). -/
theorem handle404 (b : String) :
    _handle_api_error (.httpStatusError 404 b) =
      "Error: Resource not found. Check the ID is correct." := rfl

/-- The classifier's fixed 429 message (independent of the response body). -/
theorem handle429 (b : String) :
    _handle_api_error (.httpStatusError 429 b) =
      "Error: Rate limit exceeded. Wait a moment and retry." := rfl

/-- C4 counterexample: a 404 on get-project yields the module's fixed
not-found text, which is not the literal string "resource not found"; a 429
on a list operation yields the fixed rate-limit text, which is not the
literal string "rate limit exceeded, retry later". -/
theorem c4_counterexample :
    (cc_get_project ⟨"p1"⟩ ⟨"tok", 0, .error (.httpStatusError 404 "nf")⟩).2 =
      "Error: Resource not found. Check the ID is correct." ∧
    ("Error: Resource not found. Check the ID is correct." : String) ≠
      "resource not found" ∧
    (cc_list_users ⟨1, 100⟩ ⟨"tok", 0, .error (.httpStatusError 429 "")⟩).2 =
      "Error: Rate limit exceeded. Wait a moment and retry." ∧
    ("Error: Rate limit exceeded. Wait a moment and retry." : String) ≠
      "rate limit exceeded, retry later" :=
  ⟨by decide, by decide, by decide, by decide⟩

/-- C4 (amended): the status-to-message mapping is fixed and
body-independent — an HTTP 404 on `cc_get_project` yields exactly
`"Error: Resource not found. Check the ID is correct."`, and an HTTP 429
on any of the six list operations yields exactly
`"Error: Rate limit exceeded. Wait a moment and retry."`. -/
theorem c4_status_messages :
    (∀ (p : GetProjectInput) (env : Env Project) (body : String),
        env.api_token ≠ "" → env.transport = .error (.httpStatusError 404 body) →
        (cc_get_project p env).2 =
          "Error: Resource not found. Check the ID is correct.") ∧
    (∀ (p : SearchProjectsInput) (env : Env (List Project)) (body : String),
        env.api_token ≠ "" → env.transport = .error (.httpStatusError 429 body) →
        (cc_search_projects p env).2 =
          "Error: Rate limit exceeded. Wait a moment and retry.") ∧
    (∀ (p : ListProjectPhotosInput) (env : Env (List Photo))
        (qs : List (String × QueryVal)) (body : String),
        buildPhotoParams p env.tz_offset = .ok qs →
        env.api_token ≠ "" → env.transport = .error (.httpStatusError 429 body) →
        (cc_list_project_photos p env).2 =
          "Error: Rate limit exceeded. Wait a moment and retry.") ∧
    (∀ (p : ListProjectLabelsInput) (env : Env (List StrDict)) (body : String),
        env.api_token ≠ "" → env.transport = .error (.httpStatusError 429 body) →
        (cc_list_project_labels p env).2 =
          "Error: Rate limit exceeded. Wait a moment and retry.") ∧
    (∀ (p : ListProjectCommentsInput) (env : Env (List Comment)) (body : String),
        env.api_token ≠ "" → env.transport = .error (.httpStatusError 429 body) →
        (cc_list_project_comments p env).2 =
          "Error: Rate limit exceeded. Wait a moment and retry.") ∧
    (∀ (p : ListUsersInput) (env : Env (List User)) (body : String),
        env.api_token ≠ "" → env.transport = .error (.httpStatusError 429 body) →
        (cc_list_users p env).2 =
          "Error: Rate limit exceeded. Wait a moment and retry.") ∧
    (∀ (p : ListTagsInput) (env : Env (List StrDict)) (body : String),
        env.api_token ≠ "" → env.transport = .error (.httpStatusError 429 body) →
        (cc_list_tags p env).2 =
          "Error: Rate limit exceeded. Wait a moment and retry.") := by
  refine ⟨?_, ?_, ?_, ?_, ?_, ?_, ?_⟩
  · intro p env body hne htr
    simp [cc_get_project, apiCall, hne, htr, handle404]
  · intro p env body hne htr
    simp [cc_search_projects, apiCall, hne, htr, handle429]
  · intro p env qs body hb hne htr
    simp [cc_list_project_photos, hb, apiCall, hne, htr, handle429]
  · intro p env body hne htr
    simp [cc_list_project_labels, apiCall, hne, htr, handle429]
  · intro p env body hne htr
    simp [cc_list_project_comments, apiCall, hne, htr, handle429]
  · intro p env body hne htr
    simp [cc_list_users, apiCall, hne, htr, handle429]
  · intro p env body hne htr
    simp [cc_list_tags, apiCall, hne, htr, handle429]

/-- C4 witness: a concrete 404 instance through the theorem. -/
theorem c4_witness :
    (cc_get_project ⟨"p7"⟩
        ⟨"tok", 0, Except.error (Exc.httpStatusError 404 "missing")⟩).2 =
      "Error: Resource not found. Check the ID is correct." :=
  c4_status_messages.1 ⟨"p7"⟩
    ⟨"tok", 0, Except.error (Exc.httpStatusError 404 "missing")⟩ "missing"
    (by decide) rfl

/-- C8: every operation returns a result string for every outcome — any
fault surfaced to the operation body (`httpStatusError` alias RemoteError,
`timeoutException`, `connectError` alias NetworkError, `valueError`, or any
`other` exception) is caught at the operation boundary and mapped through
`_handle_api_error` to error text; the date-translation `ValueError` of the
photo listing and the missing-token `ValueError` are mapped the same way.
In the embedding each operation is a total function into `String`, so no
fault ever propagates. -/
theorem c8_faults_mapped :
    (∀ (p : SearchProjectsInput) (env : Env (List Project)) (e : Exc),
        env.api_token ≠ "" → env.transport = .error e →
        (cc_search_projects p env).2 = _handle_api_error e) ∧
    (∀ (p : GetProjectInput) (env : Env Project) (e : Exc),
        env.api_token ≠ "" → env.transport = .error e →
        (cc_get_project p env).2 = _handle_api_error e) ∧
    (∀ (p : ListProjectPhotosInput) (env : Env (List Photo))
        (qs : List (String × QueryVal)) (e : Exc),
        buildPhotoParams p env.tz_offset = .ok qs →
        env.api_token ≠ "" → env.transport = .error e →
        (cc_list_project_photos p env).2 = _handle_api_error e) ∧
    (∀ (p : ListProjectPhotosInput) (env : Env (List Photo)) (e : Exc),
        buildPhotoParams p env.tz_offset = .error e →
        cc_list_project_photos p env = ([], _handle_api_error e)) ∧
    (∀ (p : GetPhotoInput) (env : Env Photo) (e : Exc),
        env.api_token ≠ "" → env.transport = .error e →
        (cc_get_photo p env).2 = _handle_api_error e) ∧
    (∀ (p : ListProjectLabelsInput) (env : Env (List StrDict)) (e : Exc),
        env.api_token ≠ "" → env.transport = .error e →
        (cc_list_project_labels p env).2 = _handle_api_error e) ∧
    (∀ (p : ListProjectCommentsInput) (env : Env (List Comment)) (e : Exc),
        env.api_token ≠ "" → env.transport = .error e →
        (cc_list_project_comments p env).2 = _handle_api_error e) ∧
    (∀ (p : ListUsersInput) (env : Env (List User)) (e : Exc),
        env.api_token ≠ "" → env.transport = .error e →
        (cc_list_users p env).2 = _handle_api_error e) ∧
    (∀ (p : ListTagsInput) (env : Env (List StrDict)) (e : Exc),
        env.api_token ≠ "" → env.transport = .error e →
        (cc_list_tags p env).2 = _handle_api_error e) ∧
    (∀ (p : AddProjectCommentInput) (env : Env Comment) (e : Exc),
        env.api_token ≠ "" → env.transport = .error e →
        (cc_add_project_comment p env).2 = _handle_api_error e) ∧
    (∀ (p : AddPhotoTagsInput) (env : Env TagsResp) (e : Exc),
        env.api_token ≠ "" → env.transport = .error e →
        (cc_add_photo_tags p env).2 = _handle_api_error e) ∧
    (∀ (p : AddProjectLabelsInput) (env : Env Unit) (e : Exc),
        env.api_token ≠ "" → env.transport = .error e →
        (cc_add_project_labels p env).2 = _handle_api_error e) ∧
    (∀ (p : UpdateNotepadInput) (env : Env Unit) (e : Exc),
        env.api_token ≠ "" → env.transport = .error e →
        (cc_update_project_notepad p env).2 = _handle_api_error e) ∧
    (∀ (p : AddPhotoCommentInput) (env : Env Comment) (e : Exc),
        env.api_token ≠ "" → env.transport = .error e →
        (cc_add_photo_comment p env).2 = _handle_api_error e) ∧
    (∀ (p : SearchProjectsInput) (env : Env (List Project)),
        env.api_token = "" →
        (cc_search_projects p env).2 =
          _handle_api_error (.valueError tokenErrMsg)) := by
  refine ⟨?_, ?_, ?_, ?_, ?_, ?_, ?_, ?_, ?_, ?_, ?_, ?_, ?_, ?_, ?_⟩
  · intro p env e hne htr; simp [cc_search_projects, apiCall, hne, htr]
  · intro p env e hne htr; simp [cc_get_project, apiCall, hne, htr]
  · intro p env qs e hb hne htr
    simp [cc_list_project_photos, hb, apiCall, hne, htr]
  · intro p env e hb; simp [cc_list_project_photos, hb]
  · intro p env e hne htr; simp [cc_get_photo, apiCall, hne, htr]
  · intro p env e hne htr; simp [cc_list_project_labels, apiCall, hne, htr]
  · intro p env e hne htr; simp [cc_list_project_comments, apiCall, hne, htr]
  · intro p env e hne htr; simp [cc_list_users, apiCall, hne, htr]
  · intro p env e hne htr; simp [cc_list_tags, apiCall, hne, htr]
  · intro p env e hne htr; simp [cc_add_project_comment, apiCall, hne, htr]
  · intro p env e hne htr; simp [cc_add_photo_tags, apiCall, hne, htr]
  · intro p env e hne htr; simp [cc_add_project_labels, apiCall, hne, htr]
  · intro p env e hne htr; simp [cc_update_project_notepad, apiCall, hne, htr]
  · intro p env e hne htr; simp [cc_add_photo_comment, apiCall, hne, htr]
  · intro p env h; simp [cc_search_projects, apiCall, h]

/-- C8 witness: a timeout on the tag listing becomes the classifier's
timeout text. -/
theorem c8_witness :
    (cc_list_tags ⟨1, 100⟩ ⟨"tok", 0, Except.error Exc.timeoutException⟩).2 =
      _handle_api_error Exc.timeoutException :=
  c8_faults_mapped.2.2.2.2.2.2.2.2.1 ⟨1, 100⟩
    ⟨"tok", 0, Except.error Exc.timeoutException⟩ Exc.timeoutException
    (by decide) rfl

/-- C6 counterexample: `cc_list_users` is a successful paginated list
operation returning a full page (`per_page = 1`, one user), yet its result
contains no "more results" hint — no line of it even starts with `_`.  Only
project search and photo listing append the hint. -/
theorem c6_counterexample :
    (cc_list_users ⟨1, 1⟩
        ⟨"t", 0, .ok [⟨some "u1", some "Jo", some "Doe", some "j@x.com",
          some "active"⟩]⟩).2 =
      "**1 user(s):**\n\n  • Jo Doe — ID: u1 | j@x.com | active" ∧
    (([⟨some "u1", some "Jo", some "Doe", some "j@x.com", some "active"⟩] :
        List User).length : Int) = (1 : Int) ∧
    ∀ l ∈ usersLines [⟨some "u1", some "Jo", some "Doe", some "j@x.com",
        some "active"⟩], l.data.head? ≠ some '_' :=
  ⟨rfl, by decide, by decide⟩

/-- C6 (amended): for project search and photo listing, a successful
non-empty result carries the "more results" hint line exactly when the
returned length equals `per_page` (a shorter page never carries it); the
comment, user, and tag listings never emit a hint line: none of their lines
starts with `_`, the hint lines' first character. -/
theorem c6_more_results_hint :
    (∀ (p : SearchProjectsInput) (env : Env (List Project)) (data : List Project),
        env.api_token ≠ "" → env.transport = .ok data → data ≠ [] →
        (cc_search_projects p env).2 = pyJoin "\n" (searchProjectsLines p data) ∧
        (moreResultsHint p.page ∈ searchProjectsLines p data ↔
          (data.length : Int) = p.per_page)) ∧
    (∀ (p : ListProjectPhotosInput) (env : Env (List Photo))
        (qs : List (String × QueryVal)) (data : List Photo),
        buildPhotoParams p env.tz_offset = .ok qs →
        env.api_token ≠ "" → env.transport = .ok data → data ≠ [] →
        (cc_list_project_photos p env).2 = pyJoin "\n" (listPhotosLines p data) ∧
        (morePhotosHint p.page ∈ listPhotosLines p data ↔
          (data.length : Int) = p.per_page)) ∧
    (∀ (p : ListUsersInput) (env : Env (List User)) (data : List User),
        env.api_token ≠ "" → env.transport = .ok data → data ≠ [] →
        (cc_list_users p env).2 = pyJoin "\n" (usersLines data) ∧
        ∀ l ∈ usersLines data, l.data.head? ≠ some '_') ∧
    (∀ (p : ListTagsInput) (env : Env (List StrDict)) (data : List StrDict),
        env.api_token ≠ "" → env.transport = .ok data → data ≠ [] →
        (cc_list_tags p env).2 = pyJoin "\n" (tagsLines data) ∧
        ∀ l ∈ tagsLines data, l.data.head? ≠ some '_') ∧
    (∀ (p : ListProjectCommentsInput) (env : Env (List Comment))
        (data : List Comment),
        env.api_token ≠ "" → env.transport = .ok data → data ≠ [] →
        (cc_list_project_comments p env).2 =
          pyJoin "\n" (commentsLines p data) ∧
        ∀ l ∈ commentsLines p data, l.data.head? ≠ some '_') := by
  refine ⟨?_, ?_, ?_, ?_, ?_⟩
  · intro p env data hne htr hd
    have hie : data.isEmpty = false := by
      cases data with
      | nil => exact absurd rfl hd
      | cons x xs => rfl
    exact ⟨by simp [cc_search_projects, apiCall, hne, htr, hie],
           searchHintIff p data⟩
  · intro p env qs data hb hne htr hd
    have hie : data.isEmpty = false := by
      cases data with
      | nil => exact absurd rfl hd
      | cons x xs => rfl
    exact ⟨by simp [cc_list_project_photos, hb, apiCall, hne, htr, hie],
           photosHintIff p data⟩
  · intro p env data hne htr hd
    have hie : data.isEmpty = false := by
      cases data with
      | nil => exact absurd rfl hd
      | cons x xs => rfl
    exact ⟨by simp [cc_list_users, apiCall, hne, htr, hie],
           usersLinesNoUnderscore data⟩
  · intro p env data hne htr hd
    have hie : data.isEmpty = false := by
      cases data with
      | nil => exact absurd rfl hd
      | cons x xs => rfl
    exact ⟨by simp [cc_list_tags, apiCall, hne, htr, hie],
           tagsLinesNoUnderscore data⟩
  · intro p env data hne htr hd
    have hie : data.isEmpty = false := by
      cases data with
      | nil => exact absurd rfl hd
      | cons x xs => rfl
    exact ⟨by simp [cc_list_project_comments, apiCall, hne, htr, hie],
           commentsLinesNoUnderscore p data⟩

/-- C6 witness: a full page of one project does carry the hint line. -/
theorem c6_witness :
    moreResultsHint 1 ∈ searchProjectsLines ⟨"roof", 1, 1⟩
      [⟨some "p1", some "Roof", some "active", none, none, none, none, none,
        none, none, none⟩] :=
  ((c6_more_results_hint.1 ⟨"roof", 1, 1⟩
      ⟨"t", 0, .ok [⟨some "p1", some "Roof", some "active", none, none, none,
        none, none, none, none, none⟩]⟩
      [⟨some "p1", some "Roof", some "active", none, none, none, none, none,
        none, none, none⟩]
      (by decide) rfl (by decide)).2).mpr (by decide)
